import Mathlib

set_option linter.unusedVariables false

/-!
Verification of the upload dispatcher of `src/app.js`.

The whole behaviourally relevant surface is the `app.post('/upload')`
handler (lines 76-137).  We embed it shallowly:

* an `InputFile` carries the multer fields the handler reads
  (`originalname`, server-assigned `filename`, staged `path`);
* the boot-time nullability of the two optional backends (`dbx`,
  `teraboxUploader`) becomes a `Config` of two booleans;
* the external Dropbox and TeraBox calls are modelled by an environment
  giving, per file, either an exception (JS throw/rejection) or the
  value the call resolves to;
* side effects on the staging directory are recorded in an explicit
  trace of events (`fs.readFileSync`, adapter invocation,
  `fs.unlinkSync`);
* the `media.nz` adapter (`uploadToMediaNz`, lines 63-65) is in the
  source and is embedded directly as a total function.
-/

/-- One element of `req.files` as produced by multer: original
client-supplied name, server-assigned stored name, staged path. -/
structure InputFile where
  originalname : String
  filename : String
  path : String
  deriving DecidableEq, Repr

/-- One element of `links`: JS object `{name, url}` or
`{name, url, error}`; `error := none` models an absent `error` field. -/
structure UploadResult where
  name : String
  url : String
  error : Option String
  deriving DecidableEq, Repr

/-- Observable filesystem / backend effects of the handler, in program
order. -/
inductive Event where
  | readCall (p : String)
  | uploadCall (p : String)
  | unlink (p : String)
  deriving DecidableEq, Repr

/-- Boot-time configuration: `dbx = true` iff the Dropbox client object
is non-null (SDK loaded and a non-empty access token, lines 33-36),
`teraboxUploader = true` iff the TeraBox uploader object is non-null
(library loaded, all five credentials non-empty, constructor did not
throw, lines 46-60). -/
structure Config where
  dbx : Bool
  teraboxUploader : Bool
  deriving DecidableEq, Repr

/-- Outcome of the per-file Dropbox sequence (`fs.readFileSync`;
`dbx.filesUpload`; `dbx.sharingCreateSharedLinkWithSettings`): either
some step throws / rejects with message `msg`, or the sharing call
resolves and `sharedUrl` is `sharedLinkRes.result.url`. -/
inductive DropboxOutcome where
  | exn (msg : String)
  | ok (sharedUrl : String)
  deriving DecidableEq, Repr

/-- The `fileDetails` object of a TeraBox upload result; only its
`downloadLink` field is read by the handler. -/
structure TeraFileDetails where
  downloadLink : Option String
  deriving DecidableEq, Repr

/-- Outcome of `teraboxUploader.uploadFile(f.path, null,
'/filemanager-uploads')`: a rejection, or a result object with
`success`, optional `fileDetails`, optional `message`. -/
inductive TeraboxOutcome where
  | exn (msg : String)
  | result (success : Bool) (fileDetails : Option TeraFileDetails) (message : Option String)
  deriving DecidableEq, Repr

/-- The external world for one request: what each remote call would do
for each file. -/
structure Env where
  dropboxEnv : InputFile → DropboxOutcome
  teraboxEnv : InputFile → TeraboxOutcome

/-- JS `x || dflt` for an optional string field: `undefined` and the
empty string are falsy. -/
def jsOr (s : Option String) (dflt : String) : String :=
  match s with
  | some m => if m = "" then dflt else m
  | none => dflt

/-- JS truthiness of an optional string field. -/
def truthyStr (s : Option String) : Bool :=
  match s with
  | some m => m ≠ ""
  | none => false

/-- JS `String.prototype.replace` with a string pattern: replace the
first occurrence of `pat` (matched literally) by `rep`; the input is
unchanged when `pat` does not occur. -/
def replFirst (pat rep : List Char) : List Char → List Char
  | [] => if pat = [] then rep else []
  | c :: cs =>
      if pat.isPrefixOf (c :: cs) then rep ++ (c :: cs).drop pat.length
      else c :: replFirst pat rep cs

/-- String version of `replFirst`. -/
def replaceFirstStr (pat rep s : String) : String :=
  (replFirst pat.data rep.data s.data).asString

/-- Line 95:
`url.replace('www.dropbox.com', 'dl.dropboxusercontent.com').replace('?dl=0', '')`. -/
def dropboxRewrite (url : String) : String :=
  replaceFirstStr "?dl=0" "" (replaceFirstStr "www.dropbox.com" "dl.dropboxusercontent.com" url)

/-- Return value of the media.nz placeholder adapter. -/
structure MediaNzResult where
  success : Bool
  url : Option String
  message : Option String
  deriving DecidableEq, Repr

/-- Lines 63-65: the placeholder adapter always resolves to
`{ success: false, message: 'media.nz upload not implemented yet' }`. -/
def uploadToMediaNz (filePath fileName : String) : MediaNzResult :=
  { success := false, url := none, message := some "media.nz upload not implemented yet" }

/-- One iteration of the Dropbox loop (lines 89-101): the result pushed
onto `links` and the effects performed.  `fs.readFileSync(f.path)` is
the first statement of the `try` block, so it is invoked in both
outcomes; `fs.unlinkSync(f.path)` sits after the `try`/`catch` and runs
in both outcomes. -/
def dropboxStep (denv : InputFile → DropboxOutcome) (f : InputFile) :
    UploadResult × List Event :=
  match denv f with
  | DropboxOutcome.ok sharedUrl =>
      ({ name := f.originalname, url := dropboxRewrite sharedUrl, error := none },
       [Event.readCall f.path, Event.unlink f.path])
  | DropboxOutcome.exn msg =>
      ({ name := f.originalname, url := "", error := some msg },
       [Event.readCall f.path, Event.unlink f.path])

/-- One iteration of the TeraBox loop (lines 105-117).  The guard on
line 108 is `result.success && result.fileDetails &&
result.fileDetails.downloadLink`; on line 111 the error message is
`result.message || 'Upload failed'`. -/
def teraboxStep (tenv : InputFile → TeraboxOutcome) (f : InputFile) :
    UploadResult × List Event :=
  match tenv f with
  | TeraboxOutcome.exn msg =>
      ({ name := f.originalname, url := "", error := some msg },
       [Event.uploadCall f.path, Event.unlink f.path])
  | TeraboxOutcome.result success fileDetails message =>
      let dl : Option String := fileDetails.bind (fun d => d.downloadLink)
      (if success && truthyStr dl then
        { name := f.originalname, url := dl.getD "", error := none }
      else
        { name := f.originalname, url := "", error := some (jsOr message "Upload failed") },
       [Event.uploadCall f.path, Event.unlink f.path])

/-- One iteration of the media.nz loop (lines 120-132); the adapter is
the in-source `uploadToMediaNz`, a total function, so the `catch` arm
is dead. -/
def medianzStep (f : InputFile) : UploadResult × List Event :=
  let result := uploadToMediaNz f.path f.originalname
  (if result.success then
    { name := f.originalname, url := result.url.getD "", error := none }
  else
    { name := f.originalname, url := "", error := some (jsOr result.message "Upload failed") },
   [Event.uploadCall f.path, Event.unlink f.path])

/-- The HTTP response: status code, `message` field, and the `links`
field (`none` models a body without a `links` field). -/
structure Response where
  status : Nat
  message : String
  links : Option (List UploadResult)
  deriving DecidableEq, Repr

/-- Response together with the trace of staging-directory effects. -/
structure HandlerOutput where
  response : Response
  trace : List Event
  deriving DecidableEq, Repr

/-- The `app.post('/upload', ...)` handler, lines 76-137.
`reqFiles = none` models `req.files` being `undefined`; line 78 is
`const files = req.files || []`.  Each remote-provider branch folds its
per-file step over the files in order, accumulating `links` and the
effect trace. -/
def handleUpload (cfg : Config) (env : Env) (provider : String)
    (reqFiles : Option (List InputFile)) : HandlerOutput :=
  let files := reqFiles.getD []
  if provider = "local" then
    { response :=
        { status := 200, message := "Uploaded to temporary storage.",
          links := some (files.map (fun f =>
            { name := f.originalname, url := "/uploads/" ++ f.filename, error := none })) },
      trace := [] }
  else if provider = "dropbox" then
    if cfg.dbx = false then
      { response := { status := 500, message := "Dropbox not configured.", links := none },
        trace := [] }
    else
      { response :=
          { status := 200, message := "Uploaded to Dropbox.",
            links := some (files.map (fun f => (dropboxStep env.dropboxEnv f).1)) },
        trace := (files.map (fun f => (dropboxStep env.dropboxEnv f).2)).flatten }
  else if provider = "terabox" then
    if cfg.teraboxUploader = false then
      { response := { status := 500, message := "TeraBox not configured.", links := none },
        trace := [] }
    else
      { response :=
          { status := 200, message := "Uploaded to TeraBox.",
            links := some (files.map (fun f => (teraboxStep env.teraboxEnv f).1)) },
        trace := (files.map (fun f => (teraboxStep env.teraboxEnv f).2)).flatten }
  else if provider = "medianz" then
    { response :=
        { status := 200, message := "Uploaded to media.nz.",
          links := some (files.map (fun f => (medianzStep f).1)) },
      trace := (files.map (fun f => (medianzStep f).2)).flatten }
  else
    { response := { status := 400, message := "Unknown provider.", links := none },
      trace := [] }

/-- Concrete fixture: first file of the sample batch. -/
def fileA : InputFile :=
  { originalname := "a.txt", filename := "st-a", path := "uploads/st-a" }

/-- Concrete fixture: second file of the sample batch. -/
def fileB : InputFile :=
  { originalname := "b.png", filename := "st-b", path := "uploads/st-b" }

/-- Concrete fixture: a two-file batch. -/
def filesW : List InputFile := [fileA, fileB]

/-- Concrete fixture: both backends configured. -/
def cfgW : Config := { dbx := true, teraboxUploader := true }

/-- Concrete fixture: neither backend configured. -/
def cfgN : Config := { dbx := false, teraboxUploader := false }

/-- Concrete fixture environment: Dropbox succeeds on `fileA` with a
typical shared link and throws on everything else; TeraBox succeeds on
`fileA` and rejects on everything else. -/
def envW : Env :=
  { dropboxEnv := fun f =>
      if f = fileA then DropboxOutcome.ok "https://www.dropbox.com/s/x/a.txt?dl=0"
      else DropboxOutcome.exn "network error",
    teraboxEnv := fun f =>
      if f = fileA then
        TeraboxOutcome.result true (some { downloadLink := some "https://terabox.example/dl/a" }) none
      else TeraboxOutcome.exn "boom" }

example :
    (handleUpload cfgW envW "medianz" (some filesW)).response.status = 200 := by
  rfl

example :
    (handleUpload cfgN envW "dropbox" (some filesW)).response.status = 500 := by
  rfl

example :
    dropboxRewrite "https://www.dropbox.com/s/x/a.txt?dl=0"
      = "https://dl.dropboxusercontent.com/s/x/a.txt" := by
  rfl

/-! ### Helper lemmas about the per-file steps -/

theorem dropboxStep_name (denv : InputFile → DropboxOutcome) (f : InputFile) :
    ((dropboxStep denv f).1).name = f.originalname := by
  cases h : denv f <;> simp [dropboxStep, h]

theorem teraboxStep_name (tenv : InputFile → TeraboxOutcome) (f : InputFile) :
    ((teraboxStep tenv f).1).name = f.originalname := by
  cases h : tenv f
  · simp [teraboxStep, h]
  · simp only [teraboxStep, h]
    split <;> rfl

theorem medianzStep_fst (f : InputFile) :
    (medianzStep f).1 =
      { name := f.originalname, url := "",
        error := some "media.nz upload not implemented yet" } := rfl

theorem dropboxStep_events (denv : InputFile → DropboxOutcome) (f : InputFile) :
    (dropboxStep denv f).2 = [Event.readCall f.path, Event.unlink f.path] := by
  cases h : denv f <;> simp [dropboxStep, h]

theorem teraboxStep_events (tenv : InputFile → TeraboxOutcome) (f : InputFile) :
    (teraboxStep tenv f).2 = [Event.uploadCall f.path, Event.unlink f.path] := by
  cases h : tenv f <;> simp [teraboxStep, h]

theorem medianzStep_events (f : InputFile) :
    (medianzStep f).2 = [Event.uploadCall f.path, Event.unlink f.path] := rfl

theorem dropboxStep_error_shape (denv : InputFile → DropboxOutcome) (f : InputFile)
    (h : ((dropboxStep denv f).1).error ≠ none) : ((dropboxStep denv f).1).url = "" := by
  cases hd : denv f <;> simp [dropboxStep, hd] at h ⊢

theorem teraboxStep_error_shape (tenv : InputFile → TeraboxOutcome) (f : InputFile)
    (h : ((teraboxStep tenv f).1).error ≠ none) : ((teraboxStep tenv f).1).url = "" := by
  cases ht : tenv f with
  | exn m => simp [teraboxStep, ht]
  | result s fd msg =>
      by_cases hc : (s && truthyStr (fd.bind fun d => d.downloadLink)) = true
      · simp [teraboxStep, ht, hc] at h
      · simp [teraboxStep, ht, hc]

/-! ### Helper lemmas: one equation per handler branch -/

theorem handleUpload_local (cfg : Config) (env : Env) (o : Option (List InputFile)) :
    handleUpload cfg env "local" o =
      { response :=
          { status := 200, message := "Uploaded to temporary storage.",
            links := some ((o.getD []).map (fun f =>
              { name := f.originalname, url := "/uploads/" ++ f.filename, error := none })) },
        trace := [] } := rfl

theorem handleUpload_dropbox_of_cfg (cfg : Config) (env : Env) (o : Option (List InputFile))
    (hc : cfg.dbx = true) :
    handleUpload cfg env "dropbox" o =
      { response :=
          { status := 200, message := "Uploaded to Dropbox.",
            links := some ((o.getD []).map (fun f => (dropboxStep env.dropboxEnv f).1)) },
        trace := ((o.getD []).map (fun f => (dropboxStep env.dropboxEnv f).2)).flatten } := by
  simp [handleUpload, hc]

theorem handleUpload_dropbox_of_not_cfg (cfg : Config) (env : Env) (o : Option (List InputFile))
    (hc : cfg.dbx = false) :
    handleUpload cfg env "dropbox" o =
      { response := { status := 500, message := "Dropbox not configured.", links := none },
        trace := [] } := by
  simp [handleUpload, hc]

theorem handleUpload_terabox_of_cfg (cfg : Config) (env : Env) (o : Option (List InputFile))
    (hc : cfg.teraboxUploader = true) :
    handleUpload cfg env "terabox" o =
      { response :=
          { status := 200, message := "Uploaded to TeraBox.",
            links := some ((o.getD []).map (fun f => (teraboxStep env.teraboxEnv f).1)) },
        trace := ((o.getD []).map (fun f => (teraboxStep env.teraboxEnv f).2)).flatten } := by
  simp [handleUpload, hc]

theorem handleUpload_terabox_of_not_cfg (cfg : Config) (env : Env) (o : Option (List InputFile))
    (hc : cfg.teraboxUploader = false) :
    handleUpload cfg env "terabox" o =
      { response := { status := 500, message := "TeraBox not configured.", links := none },
        trace := [] } := by
  simp [handleUpload, hc]

theorem handleUpload_medianz (cfg : Config) (env : Env) (o : Option (List InputFile)) :
    handleUpload cfg env "medianz" o =
      { response :=
          { status := 200, message := "Uploaded to media.nz.",
            links := some ((o.getD []).map (fun f => (medianzStep f).1)) },
        trace := ((o.getD []).map (fun f => (medianzStep f).2)).flatten } := rfl

theorem handleUpload_unknown (cfg : Config) (env : Env) (o : Option (List InputFile))
    (provider : String) (h1 : provider ≠ "local") (h2 : provider ≠ "dropbox")
    (h3 : provider ≠ "terabox") (h4 : provider ≠ "medianz") :
    handleUpload cfg env provider o =
      { response := { status := 400, message := "Unknown provider.", links := none },
        trace := [] } := by
  simp [handleUpload, h1, h2, h3, h4]

/-! ### First-occurrence semantics of `replFirst` -/

theorem isPrefixOf_eq_append (l₁ l₂ : List Char) :
    l₁.isPrefixOf l₂ = true ↔ ∃ t, l₂ = l₁ ++ t := by
  rw [ List.isPrefixOf_iff_prefix]
  constructor
  · rintro ⟨t, rfl⟩
    exact ⟨t, rfl⟩
  · rintro ⟨t, rfl⟩
    exact ⟨t, rfl⟩

/-- When `pat` occurs nowhere in `s`, `replFirst` leaves `s` unchanged. -/
theorem replFirst_of_no_occ (pat rep : List Char) (hne : pat ≠ []) :
    ∀ s : List Char, (∀ a b, s ≠ a ++ pat ++ b) → replFirst pat rep s = s := by
  intro s
  induction s with
  | nil => intro h; simp [replFirst, hne]
  | cons c cs ih =>
      intro h
      have hnp : pat.isPrefixOf (c :: cs) = false := by
        rw [Bool.eq_false_iff]
        intro hq
        obtain ⟨t, ht⟩ := (isPrefixOf_eq_append pat (c :: cs)).mp hq
        exact h [] t (by simpa using ht)
      rw [replFirst, if_neg (by simp [hnp])]
      have hcs : ∀ a b, cs ≠ a ++ pat ++ b := by
        intro a b hab
        exact h (c :: a) b (by simp [hab])
      rw [ih hcs]

/-- `replFirst` rewrites exactly the first occurrence: if `s` splits as
`a ++ pat ++ b` and no occurrence of `pat` starts earlier than
position `a.length`, the result is `a ++ rep ++ b`. -/
theorem replFirst_first_occ (pat rep : List Char) (hne : pat ≠ []) :
    ∀ a b : List Char,
      (∀ a₂ b₂, a ++ pat ++ b = a₂ ++ pat ++ b₂ → a.length ≤ a₂.length) →
      replFirst pat rep (a ++ pat ++ b) = a ++ rep ++ b := by
  intro a
  induction a with
  | nil =>
      intro b hmin
      obtain ⟨p, ps, rfl⟩ : ∃ p ps, pat = p :: ps := by
        cases pat with
        | nil => exact absurd rfl hne
        | cons p ps => exact ⟨p, ps, rfl⟩
      have hpre : (p :: ps).isPrefixOf ((p :: ps) ++ b) = true :=
        (isPrefixOf_eq_append _ _).mpr ⟨b, rfl⟩
      simp only [List.nil_append, List.cons_append]
      rw [replFirst]
      rw [if_pos (by rw [← List.cons_append, hpre])]
      simp [List.drop_left']
  | cons c a' ih =>
      intro b hmin
      have hnp : pat.isPrefixOf (c :: (a' ++ pat ++ b)) = false := by
        rw [Bool.eq_false_iff]
        intro hq
        obtain ⟨t, ht⟩ := (isPrefixOf_eq_append pat _).mp hq
        have hle := hmin [] t (by simpa using ht)
        simp at hle
      simp only [List.cons_append]
      rw [replFirst, if_neg (by rw [hnp]; simp)]
      have hmin' : ∀ a₂ b₂, a' ++ pat ++ b = a₂ ++ pat ++ b₂ → a'.length ≤ a₂.length := by
        intro a₂ b₂ heq
        have := hmin (c :: a₂) b₂ (by simp [heq])
        simpa using this
      rw [ih b hmin']

/-! ### Claim theorems -/

/-- C1: for every configured non-local provider (`dropbox`, `terabox`,
`medianz`) and every input file list, the dispatcher produces exactly one
`UploadResult` per `InputFile`: `links` is present, has the same length
as the file list, and its i-th entry is the result for the i-th input
file (its `name` echoes that file's original name), so result order
equals input order. -/
theorem upload_C1 (cfg : Config) (env : Env) (files : List InputFile) (provider : String)
    (hp : provider = "dropbox" ∧ cfg.dbx = true ∨
          provider = "terabox" ∧ cfg.teraboxUploader = true ∨
          provider = "medianz") :
    ∃ l, (handleUpload cfg env provider (some files)).response.links = some l ∧
      l.length = files.length ∧
      ∀ i (h : i < files.length) (h2 : i < l.length),
        (l.get ⟨i, h2⟩).name = (files.get ⟨i, h⟩).originalname := by
  rcases hp with ⟨hp, hc⟩ | ⟨hp, hc⟩ | hp <;> subst hp
  · refine ⟨files.map (fun f => (dropboxStep env.dropboxEnv f).1), ?_, by simp, ?_⟩
    · rw [handleUpload_dropbox_of_cfg cfg env (some files) hc]
      rfl
    · intro i h h2
      simp only [List.get_eq_getElem, List.getElem_map]
      exact dropboxStep_name env.dropboxEnv _
  · refine ⟨files.map (fun f => (teraboxStep env.teraboxEnv f).1), ?_, by simp, ?_⟩
    · rw [handleUpload_terabox_of_cfg cfg env (some files) hc]
      rfl
    · intro i h h2
      simp only [List.get_eq_getElem, List.getElem_map]
      exact teraboxStep_name env.teraboxEnv _
  · refine ⟨files.map (fun f => (medianzStep f).1), ?_, by simp, ?_⟩
    · rw [handleUpload_medianz cfg env (some files)]
      rfl
    · intro i h h2
      simp only [List.get_eq_getElem, List.getElem_map]
      rw [medianzStep_fst]

/-- Witness for C1 at a concrete input (provider `medianz`, two files). -/
theorem upload_C1_witness :
    (("medianz" : String) = "dropbox" ∧ cfgW.dbx = true ∨
     ("medianz" : String) = "terabox" ∧ cfgW.teraboxUploader = true ∨
     ("medianz" : String) = "medianz") ∧
    (∃ l, (handleUpload cfgW envW "medianz" (some filesW)).response.links = some l ∧
      l.length = filesW.length ∧
      ∀ i (h : i < filesW.length) (h2 : i < l.length),
        (l.get ⟨i, h2⟩).name = (filesW.get ⟨i, h⟩).originalname) :=
  ⟨Or.inr (Or.inr rfl),
   upload_C1 cfgW envW filesW "medianz" (Or.inr (Or.inr rfl))⟩

/-- C2: for every configured non-local provider, the effect trace is the
concatenation, in input order, of per-file event blocks, and every
per-file block ends with the deletion (`fs.unlinkSync`) of that file's
staged path — in every adapter outcome, unconditionally. -/
theorem upload_C2 (cfg : Config) (env : Env) (files : List InputFile) :
    (cfg.dbx = true →
      (handleUpload cfg env "dropbox" (some files)).trace
        = (files.map (fun f => (dropboxStep env.dropboxEnv f).2)).flatten ∧
      ∀ f : InputFile,
        ((dropboxStep env.dropboxEnv f).2).getLast? = some (Event.unlink f.path)) ∧
    (cfg.teraboxUploader = true →
      (handleUpload cfg env "terabox" (some files)).trace
        = (files.map (fun f => (teraboxStep env.teraboxEnv f).2)).flatten ∧
      ∀ f : InputFile,
        ((teraboxStep env.teraboxEnv f).2).getLast? = some (Event.unlink f.path)) ∧
    ((handleUpload cfg env "medianz" (some files)).trace
        = (files.map (fun f => (medianzStep f).2)).flatten ∧
      ∀ f : InputFile,
        ((medianzStep f).2).getLast? = some (Event.unlink f.path)) := by
  refine ⟨fun hc => ⟨?_, ?_⟩, fun hc => ⟨?_, ?_⟩, ?_, ?_⟩
  · rw [handleUpload_dropbox_of_cfg cfg env (some files) hc]
    rfl
  · intro f
    rw [dropboxStep_events]
    rfl
  · rw [handleUpload_terabox_of_cfg cfg env (some files) hc]
    rfl
  · intro f
    rw [teraboxStep_events]
    rfl
  · rw [handleUpload_medianz cfg env (some files)]
    rfl
  · intro f
    rw [medianzStep_events]
    rfl

/-- Witness for C2 at a concrete input (Dropbox configured, two files). -/
theorem upload_C2_witness :
    cfgW.dbx = true ∧
    ((handleUpload cfgW envW "dropbox" (some filesW)).trace
        = (filesW.map (fun f => (dropboxStep envW.dropboxEnv f).2)).flatten ∧
      ∀ f : InputFile,
        ((dropboxStep envW.dropboxEnv f).2).getLast? = some (Event.unlink f.path)) :=
  ⟨rfl, (upload_C2 cfgW envW filesW).1 rfl⟩

/-- C3: for every configured non-local provider, the batch is never
aborted by one file's failure: the response stays HTTP 200, one result
per file is produced, every file in the batch is attempted (its
read/upload call appears in the trace), and every failing entry is a
per-file record with `url = ""` alongside its error message. -/
theorem upload_C3 (cfg : Config) (env : Env) (files : List InputFile) (provider : String)
    (hp : provider = "dropbox" ∧ cfg.dbx = true ∨
          provider = "terabox" ∧ cfg.teraboxUploader = true ∨
          provider = "medianz") :
    (handleUpload cfg env provider (some files)).response.status = 200 ∧
    ∃ l, (handleUpload cfg env provider (some files)).response.links = some l ∧
      l.length = files.length ∧
      (∀ f ∈ files,
        Event.readCall f.path ∈ (handleUpload cfg env provider (some files)).trace ∨
        Event.uploadCall f.path ∈ (handleUpload cfg env provider (some files)).trace) ∧
      (∀ r ∈ l, r.error ≠ none → r.url = "") := by
  rcases hp with ⟨hp, hc⟩ | ⟨hp, hc⟩ | hp <;> subst hp
  · rw [handleUpload_dropbox_of_cfg cfg env (some files) hc]
    refine ⟨rfl, files.map (fun f => (dropboxStep env.dropboxEnv f).1), rfl, by simp, ?_, ?_⟩
    · intro f hf
      left
      refine List.mem_flatten.mpr
        ⟨(dropboxStep env.dropboxEnv f).2, List.mem_map_of_mem _ hf, ?_⟩
      rw [dropboxStep_events]
      simp
    · intro r hr herr
      obtain ⟨f, hf, rfl⟩ := List.mem_map.mp hr
      exact dropboxStep_error_shape env.dropboxEnv f herr
  · rw [handleUpload_terabox_of_cfg cfg env (some files) hc]
    refine ⟨rfl, files.map (fun f => (teraboxStep env.teraboxEnv f).1), rfl, by simp, ?_, ?_⟩
    · intro f hf
      right
      refine List.mem_flatten.mpr
        ⟨(teraboxStep env.teraboxEnv f).2, List.mem_map_of_mem _ hf, ?_⟩
      rw [teraboxStep_events]
      simp
    · intro r hr herr
      obtain ⟨f, hf, rfl⟩ := List.mem_map.mp hr
      exact teraboxStep_error_shape env.teraboxEnv f herr
  · rw [handleUpload_medianz cfg env (some files)]
    refine ⟨rfl, files.map (fun f => (medianzStep f).1), rfl, by simp, ?_, ?_⟩
    · intro f hf
      right
      refine List.mem_flatten.mpr
        ⟨(medianzStep f).2, List.mem_map_of_mem _ hf, ?_⟩
      rw [medianzStep_events]
      simp
    · intro r hr herr
      obtain ⟨f, hf, rfl⟩ := List.mem_map.mp hr
      rw [medianzStep_fst]

/-- Witness for C3 at a concrete input (TeraBox configured, two files,
one success and one rejection). -/
theorem upload_C3_witness :
    (("terabox" : String) = "dropbox" ∧ cfgW.dbx = true ∨
     ("terabox" : String) = "terabox" ∧ cfgW.teraboxUploader = true ∨
     ("terabox" : String) = "medianz") ∧
    ((handleUpload cfgW envW "terabox" (some filesW)).response.status = 200 ∧
     ∃ l, (handleUpload cfgW envW "terabox" (some filesW)).response.links = some l ∧
       l.length = filesW.length ∧
       (∀ f ∈ filesW,
         Event.readCall f.path ∈ (handleUpload cfgW envW "terabox" (some filesW)).trace ∨
         Event.uploadCall f.path ∈ (handleUpload cfgW envW "terabox" (some filesW)).trace) ∧
       (∀ r ∈ l, r.error ≠ none → r.url = "")) :=
  ⟨Or.inr (Or.inl ⟨rfl, rfl⟩),
   upload_C3 cfgW envW filesW "terabox" (Or.inr (Or.inl ⟨rfl, rfl⟩))⟩

/-- C4: with the Dropbox client unconfigured (resp. the TeraBox uploader
unconfigured), the corresponding request short-circuits to HTTP 500 with
the fixed message, the `links` field is absent, and the trace is empty —
zero staged files are read and zero are deleted. -/
theorem upload_C4 (cfg : Config) (env : Env) (reqFiles : Option (List InputFile)) :
    (cfg.dbx = false →
      handleUpload cfg env "dropbox" reqFiles =
        { response := { status := 500, message := "Dropbox not configured.", links := none },
          trace := [] }) ∧
    (cfg.teraboxUploader = false →
      handleUpload cfg env "terabox" reqFiles =
        { response := { status := 500, message := "TeraBox not configured.", links := none },
          trace := [] }) :=
  ⟨fun hc => handleUpload_dropbox_of_not_cfg cfg env reqFiles hc,
   fun hc => handleUpload_terabox_of_not_cfg cfg env reqFiles hc⟩

/-- Witness for C4 at a concrete input (no backend configured). -/
theorem upload_C4_witness :
    cfgN.dbx = false ∧
    handleUpload cfgN envW "dropbox" (some filesW) =
      { response := { status := 500, message := "Dropbox not configured.", links := none },
        trace := [] } :=
  ⟨rfl, (upload_C4 cfgN envW (some filesW)).1 rfl⟩

/-- C5: for every provider string outside the enum, `POST /upload`
returns HTTP 400 with message `"Unknown provider."`, no `links` field,
and an empty effect trace (no upload attempt, no staged-file
deletion). -/
theorem upload_C5 (cfg : Config) (env : Env) (reqFiles : Option (List InputFile))
    (provider : String) (h1 : provider ≠ "local") (h2 : provider ≠ "dropbox")
    (h3 : provider ≠ "terabox") (h4 : provider ≠ "medianz") :
    handleUpload cfg env provider reqFiles =
      { response := { status := 400, message := "Unknown provider.", links := none },
        trace := [] } :=
  handleUpload_unknown cfg env reqFiles provider h1 h2 h3 h4

/-- Witness for C5 at the concrete provider string `"s3"`. -/
theorem upload_C5_witness :
    (("s3" : String) ≠ "local" ∧ ("s3" : String) ≠ "dropbox" ∧
     ("s3" : String) ≠ "terabox" ∧ ("s3" : String) ≠ "medianz") ∧
    handleUpload cfgW envW "s3" (some filesW) =
      { response := { status := 400, message := "Unknown provider.", links := none },
        trace := [] } :=
  ⟨⟨by decide, by decide, by decide, by decide⟩,
   upload_C5 cfgW envW (some filesW) "s3" (by decide) (by decide) (by decide) (by decide)⟩

theorem uploads_path_ne_empty (s : String) : "/uploads/" ++ s ≠ "" := by
  intro hcontra
  have h2 := congrArg String.length hcontra
  rw [String.length_append] at h2
  have h9 : ("/uploads/" : String).length = 9 := rfl
  have h0 : ("" : String).length = 0 := rfl
  rw [h9, h0] at h2
  omega

/-- C6: for provider `local` with N files, the response is HTTP 200 with
exactly N entries in input order, the i-th entry pairing the i-th file's
original name with `"/uploads/" ++ <stored name>` (a non-empty url, no
error field), and the trace is empty: no staged file is deleted. -/
theorem upload_C6 (cfg : Config) (env : Env) (files : List InputFile) :
    (handleUpload cfg env "local" (some files)).response.status = 200 ∧
    (handleUpload cfg env "local" (some files)).trace = [] ∧
    ∃ l, (handleUpload cfg env "local" (some files)).response.links = some l ∧
      l.length = files.length ∧
      ∀ i (h : i < files.length) (h2 : i < l.length),
        l.get ⟨i, h2⟩ =
          { name := (files.get ⟨i, h⟩).originalname,
            url := "/uploads/" ++ (files.get ⟨i, h⟩).filename,
            error := none } ∧
        (l.get ⟨i, h2⟩).url ≠ "" := by
  refine ⟨rfl, rfl, ?_⟩
  refine ⟨files.map (fun f =>
      ({ name := f.originalname, url := "/uploads/" ++ f.filename,
         error := none } : UploadResult)), ?_, ?_, ?_⟩
  · rw [handleUpload_local cfg env (some files)]
    rfl
  · simp
  · intro i h h2
    simp only [List.get_eq_getElem, List.getElem_map]
    exact ⟨trivial, uploads_path_ne_empty _⟩

/-- Witness for C6 at a concrete two-file batch. -/
theorem upload_C6_witness :
    (handleUpload cfgW envW "local" (some filesW)).response.status = 200 ∧
    (handleUpload cfgW envW "local" (some filesW)).trace = [] ∧
    ∃ l, (handleUpload cfgW envW "local" (some filesW)).response.links = some l ∧
      l.length = filesW.length ∧
      ∀ i (h : i < filesW.length) (h2 : i < l.length),
        l.get ⟨i, h2⟩ =
          { name := (filesW.get ⟨i, h⟩).originalname,
            url := "/uploads/" ++ (filesW.get ⟨i, h⟩).filename,
            error := none } ∧
        (l.get ⟨i, h2⟩).url ≠ "" :=
  upload_C6 cfgW envW filesW

/-- C7: per-file normalization, for each adapter channel.  Dropbox:
success yields `{name, url}` with the rewritten link, exception yields
`{name, url: "", error: msg}`.  TeraBox: a resolved result with a truthy
`success` and a truthy `fileDetails.downloadLink` yields `{name, url}`;
a resolved result failing that guard yields
`{name, url: "", error: message || "Upload failed"}`; a rejection yields
`{name, url: "", error: msg}`.  media.nz: its fixed adapter always
reports failure with its own message. -/
theorem upload_C7 (denv : InputFile → DropboxOutcome) (tenv : InputFile → TeraboxOutcome)
    (f : InputFile) :
    (∀ u, denv f = DropboxOutcome.ok u →
       (dropboxStep denv f).1 =
         { name := f.originalname, url := dropboxRewrite u, error := none }) ∧
    (∀ m, denv f = DropboxOutcome.exn m →
       (dropboxStep denv f).1 = { name := f.originalname, url := "", error := some m }) ∧
    (∀ s fd msg, tenv f = TeraboxOutcome.result s fd msg →
       ((s && truthyStr (fd.bind (fun d => d.downloadLink))) = true →
          (teraboxStep tenv f).1 =
            { name := f.originalname,
              url := (fd.bind (fun d => d.downloadLink)).getD "", error := none }) ∧
       ((s && truthyStr (fd.bind (fun d => d.downloadLink))) = false →
          (teraboxStep tenv f).1 =
            { name := f.originalname, url := "",
              error := some (jsOr msg "Upload failed") })) ∧
    (∀ m, tenv f = TeraboxOutcome.exn m →
       (teraboxStep tenv f).1 = { name := f.originalname, url := "", error := some m }) ∧
    (medianzStep f).1 =
      { name := f.originalname, url := "",
        error := some "media.nz upload not implemented yet" } := by
  refine ⟨?_, ?_, ?_, ?_, rfl⟩
  · intro u hu
    simp [dropboxStep, hu]
  · intro m hm
    simp [dropboxStep, hm]
  · intro s fd msg ht
    constructor
    · intro hcond
      simp [teraboxStep, ht, hcond]
    · intro hcond
      simp [teraboxStep, ht, hcond]
  · intro m hm
    simp [teraboxStep, hm]

/-- Witness for C7: the TeraBox rejection channel at a concrete file. -/
theorem upload_C7_witness :
    envW.teraboxEnv fileB = TeraboxOutcome.exn "boom" ∧
    (teraboxStep envW.teraboxEnv fileB).1 =
      { name := fileB.originalname, url := "", error := some "boom" } :=
  ⟨rfl, (upload_C7 envW.dropboxEnv envW.teraboxEnv fileB).2.2.2.1 "boom" rfl⟩

/-- C8: for provider `medianz`, the batch response is HTTP 200 and every
file yields `{name, url: "", error: "media.nz upload not implemented
yet"}` — the fixed in-source adapter reports the failure, it does not
crash. -/
theorem upload_C8 (cfg : Config) (env : Env) (files : List InputFile) :
    (handleUpload cfg env "medianz" (some files)).response.status = 200 ∧
    (handleUpload cfg env "medianz" (some files)).response.links =
      some (files.map (fun f =>
        { name := f.originalname, url := "",
          error := some "media.nz upload not implemented yet" })) :=
  ⟨rfl, rfl⟩

/-- C9: an empty or absent file list is never an error: for `local` and
`medianz` the response is 200 with an empty `links`; for `dropbox` and
`terabox` it is 200 with empty `links` when configured and the 500
not-configured response otherwise; and `req.files` being undefined
behaves exactly like the empty list. -/
theorem upload_C9 (cfg : Config) (env : Env) (o : Option (List InputFile))
    (ho : o = none ∨ o = some []) :
    ((handleUpload cfg env "local" o).response.status = 200 ∧
     (handleUpload cfg env "local" o).response.links = some []) ∧
    ((handleUpload cfg env "medianz" o).response.status = 200 ∧
     (handleUpload cfg env "medianz" o).response.links = some []) ∧
    (cfg.dbx = true →
     (handleUpload cfg env "dropbox" o).response.status = 200 ∧
     (handleUpload cfg env "dropbox" o).response.links = some []) ∧
    (cfg.dbx = false →
     (handleUpload cfg env "dropbox" o).response.status = 500 ∧
     (handleUpload cfg env "dropbox" o).response.message = "Dropbox not configured.") ∧
    (cfg.teraboxUploader = true →
     (handleUpload cfg env "terabox" o).response.status = 200 ∧
     (handleUpload cfg env "terabox" o).response.links = some []) ∧
    (cfg.teraboxUploader = false →
     (handleUpload cfg env "terabox" o).response.status = 500 ∧
     (handleUpload cfg env "terabox" o).response.message = "TeraBox not configured.") := by
  rcases ho with rfl | rfl
  · refine ⟨⟨rfl, rfl⟩, ⟨rfl, rfl⟩, fun hc => ?_, fun hc => ?_, fun hc => ?_, fun hc => ?_⟩
    · rw [handleUpload_dropbox_of_cfg cfg env none hc]
      exact ⟨rfl, rfl⟩
    · rw [handleUpload_dropbox_of_not_cfg cfg env none hc]
      exact ⟨rfl, rfl⟩
    · rw [handleUpload_terabox_of_cfg cfg env none hc]
      exact ⟨rfl, rfl⟩
    · rw [handleUpload_terabox_of_not_cfg cfg env none hc]
      exact ⟨rfl, rfl⟩
  · refine ⟨⟨rfl, rfl⟩, ⟨rfl, rfl⟩, fun hc => ?_, fun hc => ?_, fun hc => ?_, fun hc => ?_⟩
    · rw [handleUpload_dropbox_of_cfg cfg env (some []) hc]
      exact ⟨rfl, rfl⟩
    · rw [handleUpload_dropbox_of_not_cfg cfg env (some []) hc]
      exact ⟨rfl, rfl⟩
    · rw [handleUpload_terabox_of_cfg cfg env (some []) hc]
      exact ⟨rfl, rfl⟩
    · rw [handleUpload_terabox_of_not_cfg cfg env (some []) hc]
      exact ⟨rfl, rfl⟩

/-- Witness for C9 at a concrete input (`req.files` undefined). -/
theorem upload_C9_witness :
    ((none : Option (List InputFile)) = none ∨
     (none : Option (List InputFile)) = some []) ∧
    (((handleUpload cfgW envW "local" none).response.status = 200 ∧
      (handleUpload cfgW envW "local" none).response.links = some []) ∧
     ((handleUpload cfgW envW "medianz" none).response.status = 200 ∧
      (handleUpload cfgW envW "medianz" none).response.links = some []) ∧
     (cfgW.dbx = true →
      (handleUpload cfgW envW "dropbox" none).response.status = 200 ∧
      (handleUpload cfgW envW "dropbox" none).response.links = some []) ∧
     (cfgW.dbx = false →
      (handleUpload cfgW envW "dropbox" none).response.status = 500 ∧
      (handleUpload cfgW envW "dropbox" none).response.message = "Dropbox not configured.") ∧
     (cfgW.teraboxUploader = true →
      (handleUpload cfgW envW "terabox" none).response.status = 200 ∧
      (handleUpload cfgW envW "terabox" none).response.links = some []) ∧
     (cfgW.teraboxUploader = false →
      (handleUpload cfgW envW "terabox" none).response.status = 500 ∧
      (handleUpload cfgW envW "terabox" none).response.message = "TeraBox not configured.")) :=
  ⟨Or.inl rfl, upload_C9 cfgW envW none (Or.inl rfl)⟩

/-- C10: for a configured Dropbox, every successful per-file url is the
shared link after replacing the first occurrence of `www.dropbox.com`
with `dl.dropboxusercontent.com` and removing the first occurrence of
`?dl=0` — never the raw shared link; the last two conjuncts certify that
`replFirst` really rewrites exactly the first occurrence. -/
theorem upload_C10 (cfg : Config) (env : Env) (files : List InputFile)
    (hc : cfg.dbx = true) :
    (∃ l, (handleUpload cfg env "dropbox" (some files)).response.links = some l ∧
      ∀ i (h : i < files.length) (h2 : i < l.length) u,
        env.dropboxEnv (files.get ⟨i, h⟩) = DropboxOutcome.ok u →
        (l.get ⟨i, h2⟩).url = dropboxRewrite u ∧
        (l.get ⟨i, h2⟩).url =
          replaceFirstStr "?dl=0" ""
            (replaceFirstStr "www.dropbox.com" "dl.dropboxusercontent.com" u)) ∧
    (∀ pat rep s : List Char, pat ≠ [] → (∀ a b, s ≠ a ++ pat ++ b) →
       replFirst pat rep s = s) ∧
    (∀ pat rep a b : List Char, pat ≠ [] →
       (∀ a₂ b₂, a ++ pat ++ b = a₂ ++ pat ++ b₂ → a.length ≤ a₂.length) →
       replFirst pat rep (a ++ pat ++ b) = a ++ rep ++ b) := by
  refine ⟨?_, fun pat rep s hne hno => replFirst_of_no_occ pat rep hne s hno,
          fun pat rep a b hne hmin => replFirst_first_occ pat rep hne a b hmin⟩
  refine ⟨files.map (fun f => (dropboxStep env.dropboxEnv f).1), ?_, ?_⟩
  · rw [handleUpload_dropbox_of_cfg cfg env (some files) hc]
    rfl
  · intro i h h2 u hu
    simp only [List.get_eq_getElem, List.getElem_map]
    simp only [List.get_eq_getElem] at hu
    constructor
    · simp [dropboxStep, hu]
    · simp [dropboxStep, hu, dropboxRewrite]

/-- Witness for C10 at a concrete input (Dropbox configured, first file
resolving to a typical shared link). -/
theorem upload_C10_witness :
    cfgW.dbx = true ∧
    ((∃ l, (handleUpload cfgW envW "dropbox" (some filesW)).response.links = some l ∧
      ∀ i (h : i < filesW.length) (h2 : i < l.length) u,
        envW.dropboxEnv (filesW.get ⟨i, h⟩) = DropboxOutcome.ok u →
        (l.get ⟨i, h2⟩).url = dropboxRewrite u ∧
        (l.get ⟨i, h2⟩).url =
          replaceFirstStr "?dl=0" ""
            (replaceFirstStr "www.dropbox.com" "dl.dropboxusercontent.com" u)) ∧
    (∀ pat rep s : List Char, pat ≠ [] → (∀ a b, s ≠ a ++ pat ++ b) →
       replFirst pat rep s = s) ∧
    (∀ pat rep a b : List Char, pat ≠ [] →
       (∀ a₂ b₂, a ++ pat ++ b = a₂ ++ pat ++ b₂ → a.length ≤ a₂.length) →
       replFirst pat rep (a ++ pat ++ b) = a ++ rep ++ b)) :=
  ⟨rfl, upload_C10 cfgW envW filesW rfl⟩
